import Mathlib

/-!
Verification of the scene-marker translation core of `drake_ros_systems`
(marcoag/drake-ros): the `ShapeToMarkerTranslator` / `SceneMarkerAssembler`
pair (implemented by `SceneMarkersSystem`) and the `RvizVisualizer`
diagram construction in `src/drake_ros_systems/src/rviz_visualizer.cpp`.

The translator and assembler are embedded shallowly: reals are modelled
as rationals, ROS marker messages as plain structures, and the diagram
builder of `RvizVisualizer` as explicit state passing.
-/

namespace DrakeRos

/-- A 3-vector of rational coordinates (models `geometry_msgs/Vector3`
and `geometry_msgs/Point` with `double` fields). -/
structure Vec3 where
  x : ℚ
  y : ℚ
  z : ℚ
  deriving DecidableEq, Repr

/-- A quaternion (models `geometry_msgs/Quaternion`). -/
structure Quat where
  x : ℚ
  y : ℚ
  z : ℚ
  w : ℚ
  deriving DecidableEq, Repr

/-- A rigid pose: position plus orientation (models `geometry_msgs/Pose`). -/
structure Pose where
  position : Vec3
  orientation : Quat
  deriving DecidableEq, Repr

/-- The identity rigid transform: zero translation, identity rotation. -/
def Pose.identity : Pose :=
  { position := ⟨0, 0, 0⟩, orientation := ⟨0, 0, 0, 1⟩ }

/-- An RGBA color with four channels in [0, 1] (models `std_msgs/ColorRGBA`
and `drake::geometry::Rgba`). -/
structure Rgba where
  r : ℚ
  g : ℚ
  b : ℚ
  a : ℚ
  deriving DecidableEq, Repr

/-- Cross product of two 3-vectors. -/
def Vec3.cross (u v : Vec3) : Vec3 :=
  ⟨u.y * v.z - u.z * v.y, u.z * v.x - u.x * v.z, u.x * v.y - u.y * v.x⟩

/-- Componentwise sum of two 3-vectors. -/
def Vec3.add (u v : Vec3) : Vec3 :=
  ⟨u.x + v.x, u.y + v.y, u.z + v.z⟩

/-- Scalar multiple of a 3-vector. -/
def Vec3.smul (c : ℚ) (v : Vec3) : Vec3 :=
  ⟨c * v.x, c * v.y, c * v.z⟩

/-- Rotation of a vector by a unit quaternion, via the standard
`v + 2 w (q × v) + 2 q × (q × v)` expansion of `q v q⁻¹`. -/
def Quat.rotate (q : Quat) (v : Vec3) : Vec3 :=
  let qv : Vec3 := ⟨q.x, q.y, q.z⟩
  let t : Vec3 := Vec3.smul 2 (Vec3.cross qv v)
  Vec3.add v (Vec3.add (Vec3.smul q.w t) (Vec3.cross qv t))

/-- Compose a pose with a pure translation expressed in the pose's local
frame: the offset is rotated into the parent frame and added to the
position; the orientation is unchanged. This is
`X * RigidTransform(offset)` for a translation-only second factor. -/
def Pose.offsetBy (p : Pose) (offset : Vec3) : Pose :=
  { position := Vec3.add p.position (p.orientation.rotate offset),
    orientation := p.orientation }

/-- The closed set of geometric shape kinds handled by the translator
(`drake::geometry` shape taxonomy, per spec §3). -/
inductive Shape where
  | sphere (radius : ℚ)
  | ellipsoid (a b c : ℚ)
  | cylinder (radius length : ℚ)
  | box (width depth height : ℚ)
  | capsule (radius length : ℚ)
  | halfSpace
  | convexMesh (filename : String) (scale : ℚ)
  | triangleMesh (filename : String) (scale : ℚ)
  deriving DecidableEq, Repr

/-- Render types of `visualization_msgs/Marker` used by the translator. -/
inductive MarkerType where
  | sphere
  | cylinder
  | cube
  | meshResource
  deriving DecidableEq, Repr

/-- A ROS duration (seconds and nanoseconds), as in `builtin_interfaces/Duration`. -/
structure Duration where
  sec : Int
  nanosec : Nat
  deriving DecidableEq, Repr

/-- The `visualization_msgs/Marker` update action `MODIFY`. -/
def modifyAction : Int := 0

/-- One renderable marker record (the fields of `visualization_msgs/Marker`
that the translator sets). -/
structure Marker where
  frame_id : String
  ns : String
  id : Int
  type : MarkerType
  action : Int
  pose : Pose
  scale : Vec3
  color : Rgba
  lifetime : Duration
  frame_locked : Bool
  mesh_resource : String
  deriving DecidableEq, Repr

/-- The per-entry properties resolved by the assembler and handed to the
translator: marker namespace, reference frame name, and resolved color. -/
structure MarkerProps where
  ns : String
  frameId : String
  color : Rgba
  deriving DecidableEq, Repr

/-- A marker carrying the fields every translated marker inherits:
zero lifetime, `frame_locked = true`, action `MODIFY`, the resolved
color, namespace and frame name, and the given sub-marker id. -/
def baseMarker (props : MarkerProps) (subId : Int) (ty : MarkerType)
    (pose : Pose) (scale : Vec3) : Marker :=
  { frame_id := props.frameId,
    ns := props.ns,
    id := subId,
    type := ty,
    action := modifyAction,
    pose := pose,
    scale := scale,
    color := props.color,
    lifetime := ⟨0, 0⟩,
    frame_locked := true,
    mesh_resource := "" }

/-- Modelled from the spec: `ShapeToMarkerTranslator` (the shape-dispatch
of `SceneMarkersSystem`, whose implementation file
`scene_markers_system.cpp` is not in the sources; only its test
`test_scene_markers.cpp` is). Per spec §4.1: one marker per simple kind,
three for a capsule in the fixed order [body, +cap, −cap] with sub-ids
0, 1, 2; the half-space is drawn as a large thin cube; meshes use a
`file://`-prefixed resource locator and a uniform scale. -/
def translate (shape : Shape) (pose : Pose) (props : MarkerProps) : List Marker :=
  match shape with
  | .sphere r => [baseMarker props 0 .sphere pose ⟨r, r, r⟩]
  | .ellipsoid a b c => [baseMarker props 0 .sphere pose ⟨a, b, c⟩]
  | .cylinder r len => [baseMarker props 0 .cylinder pose ⟨r, r, len⟩]
  | .box w d h => [baseMarker props 0 .cube pose ⟨w, d, h⟩]
  | .capsule r len =>
      [baseMarker props 0 .cylinder pose ⟨r, r, len⟩,
       baseMarker props 1 .sphere (pose.offsetBy ⟨0, 0, len / 2⟩) ⟨r, r, r⟩,
       baseMarker props 2 .sphere (pose.offsetBy ⟨0, 0, -(len / 2)⟩) ⟨r, r, r⟩]
  | .halfSpace => [baseMarker props 0 .cube pose ⟨100, 100, 1⟩]
  | .convexMesh f s =>
      [{ baseMarker props 0 .meshResource pose ⟨s, s, s⟩ with
         mesh_resource := "file://" ++ f }]
  | .triangleMesh f s =>
      [{ baseMarker props 0 .meshResource pose ⟨s, s, s⟩ with
         mesh_resource := "file://" ++ f }]

/-- Visual role tag of a geometry (spec §3): illustration vs. proximity. -/
inductive Role where
  | illustration
  | proximity
  deriving DecidableEq, Repr

/-- One scene-graph entry as enumerated by the scene owner (spec §3,
§6): owning source name, geometry name, shape, current world pose,
role tag, whether the geometry is anchored, the body frame name used
for dynamic geometry, and an optional role-matching color override. -/
structure SceneEntry where
  sourceName : String
  geometryName : String
  shape : Shape
  pose : Pose
  role : Role
  anchored : Bool
  bodyFrameName : String
  overrideColor : Option Rgba
  deriving DecidableEq, Repr

/-- Modelled from the spec: the fixed world/reference frame name reported
for anchored geometry — "this string is a configuration constant, not
computed" (spec §6); the test expects `"world"`. -/
def worldFrameName : String := "world"

/-- Modelled from the spec: construction-time configuration of one
`SceneMarkersSystem` instance (`SceneMarkersParams`): the role filter
and one default color per instance. -/
structure SceneMarkersParams where
  role : Role
  defaultColor : Rgba
  deriving DecidableEq, Repr

/-- Modelled from the spec: `SceneMarkersParams::Illustration()` — the
illustration-role parameter set (the spec fixes no particular default
color value, only that one exists per instance). -/
def SceneMarkersParams.Illustration : SceneMarkersParams :=
  { role := .illustration, defaultColor := ⟨9/10, 9/10, 9/10, 1⟩ }

/-- Modelled from the spec: `SceneMarkersParams::Proximity()` — the
proximity-role parameter set. -/
def SceneMarkersParams.Proximity : SceneMarkersParams :=
  { role := .proximity, defaultColor := ⟨1/2, 1/2, 1/2, 1⟩ }

/-- Modelled from the spec: color resolution (spec §3) — "if the entry
carries an explicit override for a role-matching property, use it;
otherwise fall back to a role-scoped default". -/
def resolveColor (params : SceneMarkersParams) (entry : SceneEntry) : Rgba :=
  match entry.overrideColor with
  | some c => c
  | none => params.defaultColor

/-- The reference frame name an entry's markers report: anchored
geometry always uses the fixed world frame name. -/
def frameNameOf (entry : SceneEntry) : String :=
  if entry.anchored then worldFrameName else entry.bodyFrameName

/-- The marker namespace derived for an entry (spec §4.2):
`"<source-name>::<geometry-name>"`. -/
def namespaceOf (entry : SceneEntry) : String :=
  entry.sourceName ++ "::" ++ entry.geometryName

/-- Modelled from the spec: the markers the assembler emits for one
matching entry — resolve properties, derive the namespace, invoke the
translator, keep sub-ids exactly as returned. -/
def markersForEntry (params : SceneMarkersParams) (entry : SceneEntry) : List Marker :=
  translate entry.shape entry.pose
    { ns := namespaceOf entry,
      frameId := frameNameOf entry,
      color := resolveColor params entry }

/-- Modelled from the spec: `SceneMarkerAssembler` / `assemble`
(spec §4.2) — filter the snapshot to entries whose role matches the
requested role, translate each, and concatenate in the owner's order. -/
def assemble (params : SceneMarkersParams) (scene : List SceneEntry) : List Marker :=
  (scene.filter fun e => e.role = params.role).flatMap (markersForEntry params)

/-! ### The `RvizVisualizer` diagram construction

`RvizVisualizer::RvizVisualizer` (`src/drake_ros_systems/src/rviz_visualizer.cpp`,
lines 43–93) builds a diagram with a `DiagramBuilder`: it adds systems,
connects output ports to input ports, and exports one named input. The
builder is embedded as explicit state passing: systems are indexed by
their insertion order, each system exposing the one input and one output
port the constructor uses. -/

/-- The kinds of systems `RvizVisualizer` adds to its builder. -/
inductive SystemKind where
  | rosPublisher (topic : String)
  | sceneMarkers (params : SceneMarkersParams)
  | sceneTfBroadcaster
  deriving DecidableEq, Repr

/-- Builder state: systems in insertion order, connections as
(source system, destination system) index pairs, and exported inputs as
a name paired with the internal system indices it feeds. -/
structure BuilderState where
  systems : List SystemKind
  connections : List (Nat × Nat)
  exportedInputs : List (String × List Nat)
  deriving DecidableEq, Repr

/-- The empty builder. -/
def BuilderState.empty : BuilderState := ⟨[], [], []⟩

/-- `DiagramBuilder::AddSystem`: append the system, returning its index. -/
def addSystem (st : BuilderState) (k : SystemKind) : BuilderState × Nat :=
  ({ st with systems := st.systems ++ [k] }, st.systems.length)

/-- `DiagramBuilder::Connect`: record an output-to-input connection. -/
def connect (st : BuilderState) (src dst : Nat) : BuilderState :=
  { st with connections := st.connections ++ [(src, dst)] }

/-- `DiagramBuilder::ExportInput` with an explicit name: create a named
diagram input fed to the given internal system. -/
def exportInput (st : BuilderState) (sys : Nat) (name : String) : BuilderState :=
  { st with exportedInputs := st.exportedInputs ++ [(name, [sys])] }

/-- `DiagramBuilder::ConnectInput`: connect a further internal input
port to an already-exported named diagram input. -/
def connectInput (st : BuilderState) (name : String) (sys : Nat) : BuilderState :=
  { st with
    exportedInputs := st.exportedInputs.map fun p =>
      if p.1 = name then (p.1, p.2 ++ [sys]) else p }

/-- The diagram built by `RvizVisualizer::RvizVisualizer`
(`rviz_visualizer.cpp:43-93`), following the constructor body line by
line: visual-markers publisher, illustration `SceneMarkersSystem`, their
connection, the exported `"graph_query"` input, collision-markers
publisher, proximity `SceneMarkersSystem`, their connection, the second
`"graph_query"` connection, and — when `params.publish_tf` — the TF
broadcaster with a third `"graph_query"` connection. -/
def rvizVisualizerDiagram (publishTf : Bool) : BuilderState :=
  let st0 := BuilderState.empty
  let p1 := addSystem st0 (.rosPublisher "/scene_markers/visual")
  let p2 := addSystem p1.1 (.sceneMarkers SceneMarkersParams.Illustration)
  let st3 := connect p2.1 p2.2 p1.2
  let st4 := exportInput st3 p2.2 "graph_query"
  let p5 := addSystem st4 (.rosPublisher "/scene_markers/collision")
  let p6 := addSystem p5.1 (.sceneMarkers SceneMarkersParams.Proximity)
  let st7 := connect p6.1 p6.2 p5.2
  let st8 := connectInput st7 "graph_query" p6.2
  if publishTf then
    let p9 := addSystem st8 .sceneTfBroadcaster
    connectInput p9.1 "graph_query" p9.2
  else st8

/-- Whether a system is a `SceneMarkersSystem` instance. -/
def SystemKind.isSceneMarkers : SystemKind → Bool
  | .sceneMarkers _ => true
  | _ => false

/-! ### Helper lemmas -/

/-- Every marker produced by one `translate` call carries the inherited
fields: zero lifetime, locked frame, `MODIFY` action, and the resolved
namespace, frame name and color from the properties. -/
theorem translate_mem_fields (shape : Shape) (pose : Pose) (props : MarkerProps)
    (m : Marker) (hm : m ∈ translate shape pose props) :
    m.lifetime = ⟨0, 0⟩ ∧ m.frame_locked = true ∧ m.action = modifyAction ∧
    m.frame_id = props.frameId ∧ m.ns = props.ns ∧ m.color = props.color := by
  cases shape <;>
    simp only [translate, baseMarker, List.mem_singleton, List.mem_cons,
      List.not_mem_nil, or_false] at hm
  case capsule r len =>
    rcases hm with h | h | h <;> subst h <;> exact ⟨rfl, rfl, rfl, rfl, rfl, rfl⟩
  all_goals (subst hm; exact ⟨rfl, rfl, rfl, rfl, rfl, rfl⟩)

/-- Markers the assembler emits for an entry are exactly the
translator's output on the entry's shape, pose and resolved properties. -/
theorem markersForEntry_mem_fields (params : SceneMarkersParams) (entry : SceneEntry)
    (m : Marker) (hm : m ∈ markersForEntry params entry) :
    m.lifetime = ⟨0, 0⟩ ∧ m.frame_locked = true ∧ m.action = modifyAction ∧
    m.frame_id = frameNameOf entry ∧ m.ns = namespaceOf entry ∧
    m.color = resolveColor params entry :=
  translate_mem_fields entry.shape entry.pose _ m hm

/-! ### Claim theorems -/

/-- C1: translating a `Capsule(r, len)` at the identity pose emits
exactly 3 markers in the fixed order [cylinder body, upper sphere cap,
lower sphere cap] with sub-marker ids 0, 1, 2; the body has scale
`(r, r, len)` and the shape's pose unchanged, and each cap has scale
`(r, r, r)` with position offset exactly `+len/2` (id 1) and `-len/2`
(id 2) along the local z axis and zero rotation relative to the shape
pose. -/
theorem capsule_identity_markers (r len : ℚ) (props : MarkerProps) :
    translate (.capsule r len) Pose.identity props =
      [{ frame_id := props.frameId, ns := props.ns, id := 0, type := .cylinder,
         action := modifyAction, pose := Pose.identity, scale := ⟨r, r, len⟩,
         color := props.color, lifetime := ⟨0, 0⟩, frame_locked := true,
         mesh_resource := "" },
       { frame_id := props.frameId, ns := props.ns, id := 1, type := .sphere,
         action := modifyAction,
         pose := { position := ⟨0, 0, len / 2⟩, orientation := ⟨0, 0, 0, 1⟩ },
         scale := ⟨r, r, r⟩, color := props.color, lifetime := ⟨0, 0⟩,
         frame_locked := true, mesh_resource := "" },
       { frame_id := props.frameId, ns := props.ns, id := 2, type := .sphere,
         action := modifyAction,
         pose := { position := ⟨0, 0, -(len / 2)⟩, orientation := ⟨0, 0, 0, 1⟩ },
         scale := ⟨r, r, r⟩, color := props.color, lifetime := ⟨0, 0⟩,
         frame_locked := true, mesh_resource := "" }] := by
  simp [translate, baseMarker, Pose.identity, Pose.offsetBy, Quat.rotate,
    Vec3.cross, Vec3.smul, Vec3.add]

/-- C2: every simple shape kind yields exactly one marker (3 only for
Capsule) with the tabulated render type and scale triple — Sphere(r) ↦
sphere, (r,r,r); Ellipsoid(a,b,c) ↦ sphere, (a,b,c); Cylinder(r,len) ↦
cylinder, (r,r,len); Box(w,d,h) ↦ cube, (w,d,h) — with the shape pose
passed through unchanged. -/
theorem simple_shape_markers (r a b c w d h len : ℚ)
    (pose : Pose) (props : MarkerProps) :
    (∃ m, translate (.sphere r) pose props = [m] ∧
      m.type = .sphere ∧ m.scale = ⟨r, r, r⟩ ∧ m.pose = pose) ∧
    (∃ m, translate (.ellipsoid a b c) pose props = [m] ∧
      m.type = .sphere ∧ m.scale = ⟨a, b, c⟩ ∧ m.pose = pose) ∧
    (∃ m, translate (.cylinder r len) pose props = [m] ∧
      m.type = .cylinder ∧ m.scale = ⟨r, r, len⟩ ∧ m.pose = pose) ∧
    (∃ m, translate (.box w d h) pose props = [m] ∧
      m.type = .cube ∧ m.scale = ⟨w, d, h⟩ ∧ m.pose = pose) ∧
    (translate (.capsule r len) pose props).length = 3 :=
  ⟨⟨_, rfl, rfl, rfl, rfl⟩, ⟨_, rfl, rfl, rfl, rfl⟩,
   ⟨_, rfl, rfl, rfl, rfl⟩, ⟨_, rfl, rfl, rfl, rfl⟩, rfl⟩

/-- C3: all markers emitted for one scene entry in one call carry one
identical resolved color, equal to the entry's explicit override when
present and otherwise the assembler's construction-time default. -/
theorem entry_markers_one_color (params : SceneMarkersParams) (entry : SceneEntry)
    (m m2 : Marker) (hm : m ∈ markersForEntry params entry)
    (hm2 : m2 ∈ markersForEntry params entry) :
    m.color = m2.color ∧
    m.color = match entry.overrideColor with
              | some c => c
              | none => params.defaultColor := by
  have h1 := markersForEntry_mem_fields params entry m hm
  have h2 := markersForEntry_mem_fields params entry m2 hm2
  exact ⟨h1.2.2.2.2.2.trans h2.2.2.2.2.2.symm, h1.2.2.2.2.2⟩

/-- A sample anchored illustration entry without a color override (the
single-sphere scene of `test_scene_markers.cpp`). -/
def sampleEntry : SceneEntry :=
  { sourceName := "test", geometryName := "sphere", shape := .sphere 1,
    pose := Pose.identity, role := .illustration, anchored := true,
    bodyFrameName := "", overrideColor := none }

/-- The single marker emitted for `sampleEntry`. -/
def sampleMarker : Marker :=
  baseMarker
    { ns := "test::sphere", frameId := "world",
      color := SceneMarkersParams.Illustration.defaultColor }
    0 .sphere Pose.identity ⟨1, 1, 1⟩

/-- Witness for C3 at the sample sphere entry. -/
theorem entry_markers_one_color_witness :
    sampleMarker.color = sampleMarker.color ∧
    sampleMarker.color = match sampleEntry.overrideColor with
                         | some c => c
                         | none => SceneMarkersParams.Illustration.defaultColor :=
  entry_markers_one_color SceneMarkersParams.Illustration sampleEntry
    sampleMarker sampleMarker (List.Mem.head _) (List.Mem.head _)

/-- C4: every marker emitted for any entry has zero lifetime, the
frame-locked flag set, the `MODIFY` update action, and — for anchored
geometry — the fixed world frame name as its frame of reference. -/
theorem marker_base_invariants (params : SceneMarkersParams) (entry : SceneEntry)
    (m : Marker) (hm : m ∈ markersForEntry params entry) :
    m.lifetime = ⟨0, 0⟩ ∧ m.frame_locked = true ∧ m.action = modifyAction ∧
    (entry.anchored = true → m.frame_id = worldFrameName) := by
  have h := markersForEntry_mem_fields params entry m hm
  refine ⟨h.1, h.2.1, h.2.2.1, fun ha => ?_⟩
  rw [h.2.2.2.1, frameNameOf, ha, if_pos rfl]

/-- Witness for C4 at the sample sphere entry. -/
theorem marker_base_invariants_witness :
    sampleMarker.lifetime = ⟨0, 0⟩ ∧ sampleMarker.frame_locked = true ∧
    sampleMarker.action = modifyAction ∧
    (sampleEntry.anchored = true → sampleMarker.frame_id = worldFrameName) :=
  marker_base_invariants SceneMarkersParams.Illustration sampleEntry
    sampleMarker (List.Mem.head _)

/-- C5: the namespace of every marker emitted for an entry equals the
entry's source name, then the literal separator `"::"`, then the
geometry name; all sub-markers of one entry share this namespace. -/
theorem marker_namespaces (params : SceneMarkersParams) (entry : SceneEntry)
    (m : Marker) (hm : m ∈ markersForEntry params entry) :
    m.ns = entry.sourceName ++ "::" ++ entry.geometryName :=
  (markersForEntry_mem_fields params entry m hm).2.2.2.2.1

/-- Witness for C5 at the sample sphere entry. -/
theorem marker_namespaces_witness :
    sampleMarker.ns = sampleEntry.sourceName ++ "::" ++ sampleEntry.geometryName :=
  marker_namespaces SceneMarkersParams.Illustration sampleEntry
    sampleMarker (List.Mem.head _)

/-- C6: translating a `HalfSpace` yields exactly one marker of cube
render type whose two in-plane scale components each exceed 10 length
units while the normal-axis extent is thin (at most 1), with the plane
frame pose unchanged. -/
theorem halfspace_marker (pose : Pose) (props : MarkerProps) :
    ∃ m, translate .halfSpace pose props = [m] ∧ m.type = .cube ∧
      10 < m.scale.x ∧ 10 < m.scale.y ∧ m.scale.z ≤ 1 ∧ m.pose = pose :=
  ⟨_, rfl, rfl, by norm_num [baseMarker], by norm_num [baseMarker],
    by norm_num [baseMarker], rfl⟩

/-- C7: a Convex or Triangle mesh with filename `f` and scale `s` yields
exactly one mesh-resource marker whose resource locator is exactly
`"file://" ++ f` (no further encoding) and whose scale triple is
`(s, s, s)`, with the pose unchanged. -/
theorem mesh_markers (f : String) (s : ℚ) (pose : Pose) (props : MarkerProps) :
    (∃ m, translate (.convexMesh f s) pose props = [m] ∧
      m.type = .meshResource ∧ m.mesh_resource = "file://" ++ f ∧
      m.scale = ⟨s, s, s⟩ ∧ m.pose = pose) ∧
    (∃ m, translate (.triangleMesh f s) pose props = [m] ∧
      m.type = .meshResource ∧ m.mesh_resource = "file://" ++ f ∧
      m.scale = ⟨s, s, s⟩ ∧ m.pose = pose) :=
  ⟨⟨_, rfl, rfl, rfl, rfl, rfl⟩, ⟨_, rfl, rfl, rfl, rfl, rfl⟩⟩

/-- C8: the translator is deterministic — two invocations on the same
(shape, pose, properties) input yield identical marker sequences — and
total: it returns a nonempty marker list for every shape kind in the
closed set, never failing. -/
theorem translate_deterministic_total (shape : Shape) (pose : Pose)
    (props : MarkerProps) :
    translate shape pose props = translate shape pose props ∧
    translate shape pose props ≠ [] := by
  refine ⟨rfl, ?_⟩
  cases shape <;> simp [translate]

/-- C9: when no entry of the scene matches the requested role — in
particular for the empty scene — `assemble` returns the empty marker
collection (and, being a total function, raises no error). -/
theorem assemble_no_match_empty (params : SceneMarkersParams)
    (scene : List SceneEntry) (h : ∀ e ∈ scene, e.role ≠ params.role) :
    assemble params scene = [] := by
  rw [assemble, List.filter_eq_nil_iff.mpr, List.flatMap_nil]
  intro e he
  simpa using h e he

/-- A sample proximity-role entry, used to exhibit a scene none of whose
entries match an illustration-role assembler. -/
def proximityEntry : SceneEntry :=
  { sampleEntry with role := .proximity }

/-- Witness for C9: an illustration-role assembler on a one-entry scene
holding only proximity geometry yields the empty collection. -/
theorem assemble_no_match_empty_witness :
    assemble SceneMarkersParams.Illustration [proximityEntry] = [] :=
  assemble_no_match_empty SceneMarkersParams.Illustration [proximityEntry]
    (by intro e he; simp only [List.mem_singleton] at he; subst he; decide)

/-- C10: for either value of the `publish_tf` flag, the `RvizVisualizer`
constructor builds exactly two marker-assembler instances — the first
with Illustration parameters feeding the `"/scene_markers/visual"`
publisher, the second with Proximity parameters feeding the
`"/scene_markers/collision"` publisher — and connects both to the single
exported `"graph_query"` diagram input. -/
theorem rviz_visualizer_two_assemblers (b : Bool) :
    ((rvizVisualizerDiagram b).systems.filter SystemKind.isSceneMarkers)
        = [.sceneMarkers .Illustration, .sceneMarkers .Proximity] ∧
    (rvizVisualizerDiagram b).systems[0]? =
        some (.rosPublisher "/scene_markers/visual") ∧
    (rvizVisualizerDiagram b).systems[1]? =
        some (.sceneMarkers .Illustration) ∧
    (rvizVisualizerDiagram b).systems[2]? =
        some (.rosPublisher "/scene_markers/collision") ∧
    (rvizVisualizerDiagram b).systems[3]? =
        some (.sceneMarkers .Proximity) ∧
    (1, 0) ∈ (rvizVisualizerDiagram b).connections ∧
    (3, 2) ∈ (rvizVisualizerDiagram b).connections ∧
    ∃ l, (rvizVisualizerDiagram b).exportedInputs = [("graph_query", l)] ∧
      1 ∈ l ∧ 3 ∈ l := by
  cases b <;>
    exact ⟨rfl, rfl, rfl, rfl, rfl, by decide, by decide,
      ⟨_, rfl, by decide, by decide⟩⟩

end DrakeRos
